import Mathlib

/-!
Verification of the panther-mock detection engine
(`src/lib/panther-mock/{helpers,engine,schemas}.py`) against its
natural-language specification.

Events are the JSON-like structures the engine consumes: nested Python
dicts (string-keyed, insertion ordered — modelled as association lists),
lists, strings, ints, bools and `None`.  Floating-point numbers do not
occur in any behaviour under verification and are not modelled.

Rule predicates and extractors are arbitrary user-supplied Python
callables that may raise; they are modelled as total functions into
`Except String Value`, where `Except.error msg` stands for a raised
exception rendered as the string `msg`.  Wall-clock timing
(`execution_time_ms`) is environmental and modelled as the constant 0.
-/

/-- JSON-like dynamic value: the shape of events and of everything rule
functions return.  Python dicts are string-keyed association lists in
insertion order. -/
inductive Value where
  | null
  | bool (b : Bool)
  | int (n : Int)
  | str (s : String)
  | arr (xs : List Value)
  | obj (kvs : List (String × Value))

/-- First-match association-list lookup: `d.get(k)` / `d[k]` on a Python
dict whose keys are unique. -/
def lookupVal : List (String × Value) → String → Option Value
  | [], _ => none
  | (k, v) :: tl, key => if k = key then some v else lookupVal tl key

/-- Membership test `key in d` on a Python dict. -/
def containsKey (kvs : List (String × Value)) (key : String) : Bool :=
  match lookupVal kvs key with
  | some _ => true
  | none => false

/-- Python truthiness `bool(x)` for the modelled values. -/
def truthy : Value → Bool
  | .null => false
  | .bool b => b
  | .int n => n != 0
  | .str s => !s.isEmpty
  | .arr xs => !xs.isEmpty
  | .obj kvs => !kvs.isEmpty

/-- Python type name `type(value).__name__` for the modelled values. -/
def pyTypeName : Value → String
  | .null => "NoneType"
  | .bool _ => "bool"
  | .int _ => "int"
  | .str _ => "str"
  | .arr _ => "list"
  | .obj _ => "dict"

/-- A path component passed to `deep_get`: rule authors pass strings, and
the code additionally honours `int` keys for list indexing. -/
inductive Key where
  | str (s : String)
  | int (i : Int)

/-- Python list indexing `xs[i]` including negative indices;
`none` models the raised `IndexError` for out-of-range `i`. -/
def pyIndex (xs : List Value) (i : Int) : Option Value :=
  let n : Int := xs.length
  if 0 ≤ i ∧ i < n then xs.get? i.toNat
  else if -n ≤ i ∧ i < 0 then xs.get? (i + n).toNat
  else none

/-- One iteration of the loop in `helpers.deep_get`: take one step through
`result` by `key`.  `none` covers every soft-fail arm of the loop body —
key absent from the dict, `None` stored at the key, out-of-range list
index, an `int` key applied to a dict, or a node that is neither a dict
nor a list (the `else: return default` arm), and the `if result is None:
return default` check after the step. -/
def getStep : Value → Key → Option Value
  | .obj kvs, .str s =>
      match lookupVal kvs s with
      | some .null => none
      | some v => some v
      | none => none
  | .obj _, .int _ => none
  | .arr xs, .int i =>
      match pyIndex xs i with
      | some .null => none
      | some v => some v
      | none => none
  | _, _ => none

/-- Model of `helpers.deep_get(event, *keys, default=...)`: walk `keys` through
`event`, returning `default` on any soft-fail, and `default` when the
final resolved value is `None`. -/
def deep_get (default : Value) : Value → List Key → Value
  | result, [] =>
      match result with
      | .null => default
      | r => r
  | result, key :: rest =>
      match getStep result key with
      | some r => deep_get default r rest
      | none => default

/-- The traversal of `deep_get` succeeds on every step and ends on a
non-`None` value (so the default is never consulted). -/
def resolvesOk : Value → List Key → Bool
  | v, [] =>
      match v with
      | .null => false
      | _ => true
  | v, key :: rest =>
      match getStep v key with
      | some r => resolvesOk r rest
      | none => false

mutual
/-- Inner `_walk(obj, remaining_keys)` of `helpers.deep_walk`. -/
def walkVal (return_val : String) : Value → List String → List Value
  | v, [] =>
      if return_val = "key" then
        match v with
        | .obj kvs => kvs.map (fun kv => Value.str kv.1)
        | _ => []
      else
        match v with
        | .null => []
        | v' => [v']
  | .obj kvs, key :: rest => walkObj return_val kvs key rest
  | .arr xs, key :: rest => walkArr return_val xs (key :: rest)
  | _, _ :: _ => []

/-- The dict arm of `_walk`: `if key in obj: return _walk(obj[key], rest);
return []`, fused with the dict lookup. -/
def walkObj (return_val : String) : List (String × Value) → String → List String → List Value
  | [], _, _ => []
  | (k, v) :: tl, key, rest =>
      if k = key then walkVal return_val v rest else walkObj return_val tl key rest

/-- The list arm of `_walk`: fan out over the elements, applying the whole
remaining path to each, concatenating in element order. -/
def walkArr (return_val : String) : List Value → List String → List Value
  | [], _ => []
  | x :: tl, keys => walkVal return_val x keys ++ walkArr return_val tl keys
end

/-- Model of `helpers.deep_walk(event, *keys, default=..., return_val=...)`:
`results if results else (default if default is not None else [])`,
with a non-empty aggregate returned as the Python list `results`. -/
def deep_walk (event : Value) (keys : List String) (default : Value)
    (return_val : String) : Value :=
  match walkVal return_val event keys with
  | [] =>
      match default with
      | .null => .arr []
      | d => d
  | results => .arr results

/-- An extractor or rule callable: a user-supplied Python function that
may raise (`Except.error` = raised exception rendered as a string). -/
def RuleFn : Type := Value → Except String Value

/-- Model of `engine.Detection`: a loaded detection rule.  `file_path` is kept as
the string the engine stores (`str(detection.file_path)`). -/
structure Detection where
  rule_id : String
  file_path : String
  rule_func : RuleFn
  title_func : Option RuleFn := none
  severity_func : Option RuleFn := none
  description_func : Option RuleFn := none
  reference_func : Option RuleFn := none
  runbook_func : Option RuleFn := none
  alert_context_func : Option RuleFn := none
  dedup_func : Option RuleFn := none
  log_types : List String := []
  enabled : Bool := true
  tags : List String := []

/-- Property `Detection.default_severity`. -/
def Detection.default_severity (_ : Detection) : Value := .str "MEDIUM"

/-- Model of `engine.DetectionResult`: the verdict for one (unit, event) pair.
Field defaults are those of the Python dataclass; `severity` defaults to
the string `"MEDIUM"`.  `execution_time_ms` is wall-clock and modelled
as 0. -/
structure DetectionResult where
  rule_id : String
  rule_file : String
  matched : Bool
  event : Value
  title : Option Value := none
  severity : Value := .str "MEDIUM"
  description : Option Value := none
  reference : Option Value := none
  runbook : Option Value := none
  alert_context : Option Value := none
  dedup_string : Option Value := none
  error : Option String := none
  execution_time_ms : Nat := 0

/-- Render an `Optional` field for `to_dict`: Python `None` serializes as
JSON null. -/
def optValue : Option Value → Value
  | none => .null
  | some v => v

/-- Serialization `DetectionResult.to_dict`, fields in source order. -/
def DetectionResult.to_dict (r : DetectionResult) : Value :=
  .obj [
    ("rule_id", .str r.rule_id),
    ("rule_file", .str r.rule_file),
    ("matched", .bool r.matched),
    ("title", optValue r.title),
    ("severity", r.severity),
    ("description", optValue r.description),
    ("reference", optValue r.reference),
    ("runbook", optValue r.runbook),
    ("alert_context", optValue r.alert_context),
    ("dedup_string", optValue r.dedup_string),
    ("error", match r.error with | none => Value.null | some s => Value.str s),
    ("execution_time_ms", .int (r.execution_time_ms : Int)),
    ("event", r.event)
  ]

/-!
`DetectionEngine.run_detection` puts the rule call and all seven
extractor blocks inside one `try`; the first exception anywhere in that
block jumps to the single `except`, which records the error and leaves
every field assigned so far in place.  The cascade below mirrors that
fall-through: each `...Step` is one `if detection.x_func:` block and on
success continues with the next block; on a raise it stops with the
error recorded on the partial result.
-/

/-- Block `if detection.dedup_func: result.dedup_string = detection.dedup_func(event)`. -/
def dedupStep (d : Detection) (event : Value) (r : DetectionResult) : DetectionResult :=
  match d.dedup_func with
  | none => r
  | some f =>
      match f event with
      | .ok v => { r with dedup_string := some v }
      | .error e => { r with error := some e }

/-- Block `if detection.alert_context_func: ...`, then fall through to dedup. -/
def alertContextStep (d : Detection) (event : Value) (r : DetectionResult) : DetectionResult :=
  match d.alert_context_func with
  | none => dedupStep d event r
  | some f =>
      match f event with
      | .ok v => dedupStep d event { r with alert_context := some v }
      | .error e => { r with error := some e }

/-- Block `if detection.runbook_func: ...`, then fall through. -/
def runbookStep (d : Detection) (event : Value) (r : DetectionResult) : DetectionResult :=
  match d.runbook_func with
  | none => alertContextStep d event r
  | some f =>
      match f event with
      | .ok v => alertContextStep d event { r with runbook := some v }
      | .error e => { r with error := some e }

/-- Block `if detection.reference_func: ...`, then fall through. -/
def referenceStep (d : Detection) (event : Value) (r : DetectionResult) : DetectionResult :=
  match d.reference_func with
  | none => runbookStep d event r
  | some f =>
      match f event with
      | .ok v => runbookStep d event { r with reference := some v }
      | .error e => { r with error := some e }

/-- Block `if detection.description_func: ...`, then fall through. -/
def descriptionStep (d : Detection) (event : Value) (r : DetectionResult) : DetectionResult :=
  match d.description_func with
  | none => referenceStep d event r
  | some f =>
      match f event with
      | .ok v => referenceStep d event { r with description := some v }
      | .error e => { r with error := some e }

/-- Block `if detection.severity_func: ... else: result.severity =
detection.default_severity`, then fall through. -/
def severityStep (d : Detection) (event : Value) (r : DetectionResult) : DetectionResult :=
  match d.severity_func with
  | none => descriptionStep d event { r with severity := d.default_severity }
  | some f =>
      match f event with
      | .ok v => descriptionStep d event { r with severity := v }
      | .error e => { r with error := some e }

/-- Block `if detection.title_func: ...`, then fall through. -/
def titleStep (d : Detection) (event : Value) (r : DetectionResult) : DetectionResult :=
  match d.title_func with
  | none => severityStep d event r
  | some f =>
      match f event with
      | .ok v => severityStep d event { r with title := some v }
      | .error e => { r with error := some e }

/-- Model of `DetectionEngine.run_detection(detection, event)`: initialise the
verdict with `matched=False`, run the rule function, coerce with
`bool(...)`, and if matched run the extractor cascade.  A raise in the
rule function records the error on the untouched initial result. -/
def run_detection (detection : Detection) (event : Value) : DetectionResult :=
  let result : DetectionResult :=
    { rule_id := detection.rule_id
      rule_file := detection.file_path
      matched := false
      event := event }
  match detection.rule_func event with
  | .error e => { result with error := some e }
  | .ok mv =>
      let result := { result with matched := truthy mv }
      if truthy mv then titleStep detection event result else result

/-- The skip test in `DetectionEngine.run`:
`if rule_ids and rule_id not in rule_ids: continue`.  Python truthiness
makes `None` and the empty list both skip the filter entirely. -/
def keepByFilter (rule_ids : Option (List String)) (rid : String) : Bool :=
  match rule_ids with
  | none => true
  | some l => l.isEmpty || l.contains rid

/-- Inner loop of `DetectionEngine.run`: iterate the registry (a Python
dict, in insertion order) for one event, skipping filtered-out and
disabled rules. -/
def runUnits (rule_ids : Option (List String)) (event : Value) :
    List (String × Detection) → List DetectionResult
  | [] => []
  | (rid, d) :: rest =>
      if !keepByFilter rule_ids rid then runUnits rule_ids event rest
      else if !d.enabled then runUnits rule_ids event rest
      else run_detection d event :: runUnits rule_ids event rest

/-- Model of `DetectionEngine.run(events, rule_ids)` for a list of events (a
single dict is wrapped into a one-element list by the source before this
loop): outer loop over events, inner loop over registry entries. -/
def run (detections : List (String × Detection)) (events : List Value)
    (rule_ids : Option (List String)) : List DetectionResult :=
  match events with
  | [] => []
  | e :: rest => runUnits rule_ids e detections ++ run detections rest rule_ids

/-!
Loader.  `DetectionEngine.load_rule` resolves a file, executes it as a
module, and requires a `rule` attribute.  The filesystem/import side is
modelled by `SourceContent`: a candidate source is either absent
(`FileNotFoundError`), raises while executing (`ImportError`), or
materialises into a module exposing optional attributes.
-/

/-- The attributes a successfully executed rule module exposes. -/
structure ModuleDef where
  rule : Option RuleFn := none
  title : Option RuleFn := none
  severity : Option RuleFn := none
  description : Option RuleFn := none
  reference : Option RuleFn := none
  runbook : Option RuleFn := none
  alert_context : Option RuleFn := none
  dedup : Option RuleFn := none
  LOG_TYPES : List String := []
  ENABLED : Bool := true
  TAGS : List String := []

/-- What materialising one candidate source can yield. -/
inductive SourceContent where
  | absent
  | execFault (msg : String)
  | module (m : ModuleDef)

/-- One candidate rule source: its file stem (the derived rule id) and
what loading it yields. -/
structure RuleSource where
  stem : String
  content : SourceContent

/-- Test `rule_file.name.startswith("_")` of the batch-load loop: for
the one-character prefix this is exactly a first-character check
(written without `String.startsWith`, which does not reduce). -/
def startsWithUnderscore (s : String) : Bool :=
  match s.data with
  | [] => false
  | c :: _ => c = '_'

/-- Python dict assignment `self.detections[rule_id] = detection`:
replace in place when the key exists (insertion order kept), append
otherwise. -/
def insertReg : List (String × Detection) → String → Detection → List (String × Detection)
  | [], rid, d => [(rid, d)]
  | (k, v) :: rest, rid, d =>
      if k = rid then (k, d) :: rest
      else (k, v) :: insertReg rest rid d

/-- Model of `DetectionEngine.load_rule`: `Except.error` models the raised
`FileNotFoundError` / `ImportError` / `ValueError`; on success the built
`Detection` is registered under its stem and returned. -/
def load_rule (detections : List (String × Detection)) (src : RuleSource) :
    Except String (Detection × List (String × Detection)) :=
  match src.content with
  | .absent => .error ("Rule file not found: " ++ src.stem)
  | .execFault msg => .error ("Error loading rule " ++ src.stem ++ ": " ++ msg)
  | .module m =>
      match m.rule with
      | none => .error ("Rule " ++ src.stem ++ " must define a rule function")
      | some rf =>
          let d : Detection :=
            { rule_id := src.stem
              file_path := src.stem
              rule_func := rf
              title_func := m.title
              severity_func := m.severity
              description_func := m.description
              reference_func := m.reference
              runbook_func := m.runbook
              alert_context_func := m.alert_context
              dedup_func := m.dedup
              log_types := m.LOG_TYPES
              enabled := m.ENABLED
              tags := m.TAGS }
          .ok (d, insertReg detections src.stem d)

/-- Model of `DetectionEngine.load_rules`: glob order over candidate sources,
skipping names that start with an underscore; a failed `load_rule` is
reported and skipped, leaving the registry untouched for that source.
Returns the loaded detections and the final registry. -/
def load_rules (detections : List (String × Detection)) :
    List RuleSource → List Detection × List (String × Detection)
  | [] => ([], detections)
  | src :: rest =>
      if startsWithUnderscore src.stem then load_rules detections rest
      else
        match load_rule detections src with
        | .ok (d, detections') =>
            let (ds, final) := load_rules detections' rest
            (d :: ds, final)
        | .error _ => load_rules detections rest

/-!
Schemas (`src/lib/panther-mock/schemas.py`).  Only the parts claims
touch: `SchemaField`, `LogSchema.validate` and `LogSchema._check_type`.
`required_fields` is a Python set iterated in unspecified order,
modelled as a list; `fields` is a dict, modelled as an association list
in insertion order.
-/

/-- Model of `schemas.SchemaField` (the claims do not touch `nested_schema`). -/
structure SchemaField where
  name : String
  type : String
  required : Bool := false
  description : String := ""

/-- Model of `schemas.LogSchema` restricted to the fields `validate` reads. -/
structure LogSchema where
  fields : List (String × SchemaField) := []
  required_fields : List String := []
  timestamp_field : String := "timestamp"

/-- Model of `LogSchema._check_type`: `None` satisfies every declared type; an
unknown type name also passes.  Python `bool` is a subclass of `int`, so
boolean values satisfy `int` and `float`. -/
def check_type (value : Value) (expected_type : String) : Bool :=
  match value with
  | .null => true
  | v =>
      if expected_type = "string" then
        match v with | .str _ => true | _ => false
      else if expected_type = "int" then
        match v with | .int _ => true | .bool _ => true | _ => false
      else if expected_type = "float" then
        match v with | .int _ => true | .bool _ => true | _ => false
      else if expected_type = "bool" then
        match v with | .bool _ => true | _ => false
      else if expected_type = "object" then
        match v with | .obj _ => true | _ => false
      else if expected_type = "array" then
        match v with | .arr _ => true | _ => false
      else if expected_type = "timestamp" then
        match v with | .str _ => true | _ => false
      else true

/-- The message appended for an absent required field. -/
def missingMsg (field_name : String) : String :=
  "Missing required field: " ++ field_name

/-- The message appended for a present field of the wrong type. -/
def typeMsg (field_name : String) (expected : String) (value : Value) : String :=
  "Field " ++ field_name ++ " has wrong type. Expected " ++ expected ++
    ", got " ++ pyTypeName value

/-- Model of `LogSchema.validate`: required-field errors first (loop over
`required_fields`), then type errors (loop over `fields`, checking only
keys present in the event). -/
def LogSchema.validate (s : LogSchema) (event : List (String × Value)) : List String :=
  (s.required_fields.filterMap fun fn =>
    if containsKey event fn then none else some (missingMsg fn)) ++
  (s.fields.filterMap fun fd =>
    match lookupVal event fd.1 with
    | none => none
    | some v =>
        if check_type v fd.2.type then none
        else some (typeMsg fd.1 fd.2.type v))

/-!
Auxiliary notions and concrete fixtures used by the verification
theorems below.
-/

/-- Python `value is None`. -/
def isNull : Value → Bool
  | .null => true
  | _ => false

/-- Lookup of a key inside a serialized dict (`to_dict` output). -/
def dictLookup (v : Value) (key : String) : Option Value :=
  match v with
  | .obj kvs => lookupVal kvs key
  | _ => none

/-- An optional extractor does not raise on `e`: it is either absent or
returns a value. -/
def StepOk (f? : Option RuleFn) (e : Value) : Prop :=
  f? = none ∨ ∃ f v, f? = some f ∧ f e = Except.ok v

/-- The value a non-raising optional extractor contributes (`none` when
the extractor is absent). -/
def stepVal (f? : Option RuleFn) (e : Value) : Option Value :=
  match f? with
  | none => none
  | some f =>
      match f e with
      | .ok v => some v
      | .error _ => none

/-- The severity the cascade assigns when the severity block does not
raise: the extractor value, or `"MEDIUM"` when no extractor is defined. -/
def sevVal (d : Detection) (e : Value) : Value :=
  match d.severity_func with
  | none => .str "MEDIUM"
  | some f =>
      match f e with
      | .ok v => v
      | .error _ => .str "MEDIUM"

/-- The empty event. -/
def eEmpty : Value := .obj []

/-- A detection whose predicate always raises. -/
def dRaise : Detection :=
  { rule_id := "raiser"
    file_path := "raiser"
    rule_func := fun _ => .error "kaboom" }

/-- A detection whose predicate never matches. -/
def dNoMatch : Detection :=
  { rule_id := "nomatch"
    file_path := "nomatch"
    rule_func := fun _ => .ok (.bool false) }

/-- A description extractor that succeeds with a constant string. -/
def descFn : RuleFn := fun _ => .ok (.str "desc")

/-- A detection that matches, whose title extractor raises and whose
description extractor would succeed. -/
def dFaultTitle : Detection :=
  { rule_id := "cx"
    file_path := "cx"
    rule_func := fun _ => .ok (.bool true)
    title_func := some fun _ => .error "boom"
    description_func := some descFn }

/-- A trivially matching enabled detection (fixture A). -/
def dA : Detection :=
  { rule_id := "A"
    file_path := "A"
    rule_func := fun _ => .ok (.bool true) }

/-- A trivially non-matching enabled detection (fixture B). -/
def dB : Detection :=
  { rule_id := "B"
    file_path := "B"
    rule_func := fun _ => .ok (.bool false) }

/-- The fan-out example event of the specification. -/
def eRecords : Value :=
  .obj [("records", .arr [.obj [("id", .int 1)], .obj [("id", .int 2)]])]

/-- The empty-records example event of the specification. -/
def eRecordsEmpty : Value := .obj [("records", .arr [])]

/-- The rule function of the well-formed loader fixture. -/
def goodFn : RuleFn := fun _ => .ok (.bool true)

/-- A well-formed rule source: executes fine and defines `rule`. -/
def goodSrc : RuleSource :=
  { stem := "good_rule", content := .module { rule := some goodFn } }

/-- A contractually-invalid rule source: executes fine but defines no
`rule` function. -/
def badSrc : RuleSource :=
  { stem := "bad_rule", content := .module {} }

/-- The detection `load_rule` builds from `goodSrc`. -/
def goodDet : Detection :=
  { rule_id := "good_rule"
    file_path := "good_rule"
    rule_func := goodFn }

/-- A one-field schema whose single field is required and string-typed. -/
def schemaA : LogSchema :=
  { fields := [("a", { name := "a", type := "string" })]
    required_fields := ["a"] }

/-- An event carrying the required field with a null value. -/
def eventNullA : List (String × Value) := [("a", .null)]

/-!
Theorems.
-/

/-- Stepping from the null sentinel always soft-fails. -/
theorem getStep_null (key : Key) : getStep .null key = none := by
  cases key <;> rfl

/-- An index outside Python range (negative indices included) makes
`pyIndex` model the raised `IndexError`. -/
theorem pyIndex_out (xs : List Value) (i : Int)
    (h : i < -(xs.length : Int) ∨ (xs.length : Int) ≤ i) : pyIndex xs i = none := by
  unfold pyIndex
  rcases h with h | h
  · rw [if_neg (by omega), if_neg (by omega)]
  · rw [if_neg (by omega), if_neg (by omega)]

/-- A successful association-list lookup finds a pair of the list. -/
theorem lookupVal_mem {kvs : List (String × Value)} {key : String} {v : Value}
    (h : lookupVal kvs key = some v) : (key, v) ∈ kvs := by
  induction kvs with
  | nil => simp [lookupVal] at h
  | cons hd tl ih =>
      obtain ⟨k0, v0⟩ := hd
      by_cases hk : k0 = key
      · subst hk
        simp [lookupVal] at h
        subst h
        exact List.mem_cons_self _ _
      · simp [lookupVal, hk] at h
        exact List.mem_cons_of_mem _ (ih h)

/-- Claim C6: `deep_get` never raises — it is a total function of the
embedding — and it returns the caller's default in every soft-fail
situation: the current node is the null sentinel (in particular when an
intermediate or the final resolved value is `None`), the current node is
a scalar (not a mapping or sequence) while path keys remain, the path
key is absent from the mapping, the stored value at the key is `None`,
an `int` key is applied to a mapping, a string key is applied to a
sequence, or a sequence index is out of Python range. -/
theorem C6_deep_get_soft_fail :
    (∀ default keys, deep_get default .null keys = default) ∧
    (∀ default b key keys, deep_get default (.bool b) (key :: keys) = default) ∧
    (∀ default n key keys, deep_get default (.int n) (key :: keys) = default) ∧
    (∀ default s key keys, deep_get default (.str s) (key :: keys) = default) ∧
    (∀ default kvs s keys, lookupVal kvs s = none →
      deep_get default (.obj kvs) (.str s :: keys) = default) ∧
    (∀ default kvs s keys, lookupVal kvs s = some .null →
      deep_get default (.obj kvs) (.str s :: keys) = default) ∧
    (∀ default kvs i keys, deep_get default (.obj kvs) (.int i :: keys) = default) ∧
    (∀ default xs s keys, deep_get default (.arr xs) (.str s :: keys) = default) ∧
    (∀ default xs i keys, (i < -(xs.length : Int) ∨ (xs.length : Int) ≤ i) →
      deep_get default (.arr xs) (.int i :: keys) = default) := by
  refine ⟨?_, ?_, ?_, ?_, ?_, ?_, ?_, ?_, ?_⟩
  · intro d keys
    cases keys with
    | nil => rfl
    | cons key rest => simp [deep_get, getStep_null]
  · intro d b key keys; cases key <;> rfl
  · intro d n key keys; cases key <;> rfl
  · intro d s key keys; cases key <;> rfl
  · intro d kvs s keys h; simp [deep_get, getStep, h]
  · intro d kvs s keys h; simp [deep_get, getStep, h]
  · intro d kvs i keys; rfl
  · intro d xs s keys; rfl
  · intro d xs i keys h; simp [deep_get, getStep, pyIndex_out xs i h]

/-- Witness for C6: the hypothesis-bearing conjuncts at concrete inputs. -/
theorem C6_deep_get_soft_fail_witness :
    (lookupVal [] "k" = none ∧ deep_get (.str "dflt") (.obj []) [.str "k"] = .str "dflt") ∧
    (lookupVal [("k", .null)] "k" = some .null ∧
      deep_get (.str "dflt") (.obj [("k", .null)]) [.str "k"] = .str "dflt") ∧
    (((2 : Int) < -(([] : List Value).length : Int) ∨ (([] : List Value).length : Int) ≤ 2) ∧
      deep_get (.str "dflt") (.arr []) [.int 2] = .str "dflt") :=
  ⟨⟨rfl, C6_deep_get_soft_fail.2.2.2.2.1 _ [] "k" [] rfl⟩,
   ⟨rfl, C6_deep_get_soft_fail.2.2.2.2.2.1 _ [("k", .null)] "k" [] rfl⟩,
   ⟨Or.inr (by decide), C6_deep_get_soft_fail.2.2.2.2.2.2.2.2 _ [] 2 [] (Or.inr (by decide))⟩⟩

/-- Claim C7: `deep_get` composes over any split of a valid path: when
the whole path resolves, getting the suffix from the value of the prefix
equals getting the concatenated path. -/
theorem C7_deep_get_compose (e : Value) (p s : List Key) (default : Value)
    (h : resolvesOk e (p ++ s) = true) :
    deep_get default (deep_get default e p) s = deep_get default e (p ++ s) := by
  induction p generalizing e with
  | nil =>
      have he : deep_get default e [] = e := by
        cases s with
        | nil =>
            cases e <;> simp_all [resolvesOk, deep_get]
        | cons k ks =>
            simp only [List.nil_append, resolvesOk] at h
            cases hs : getStep e k with
            | none => rw [hs] at h; simp at h
            | some v =>
                cases e <;> simp_all [deep_get, getStep_null]
      rw [he]; rfl
  | cons k p ih =>
      simp only [List.cons_append, resolvesOk] at h
      cases hs : getStep e k with
      | none => rw [hs] at h; simp at h
      | some v =>
          rw [hs] at h
          simp only [deep_get, hs, List.cons_append]
          exact ih v h

/-- Witness for C7: a two-step path split after its first key. -/
theorem C7_deep_get_compose_witness :
    resolvesOk (.obj [("a", .obj [("b", .int 7)])]) ([Key.str "a"] ++ [Key.str "b"]) = true ∧
    deep_get .null (deep_get .null (.obj [("a", .obj [("b", .int 7)])]) [Key.str "a"])
        [Key.str "b"] =
      deep_get .null (.obj [("a", .obj [("b", .int 7)])]) ([Key.str "a"] ++ [Key.str "b"]) :=
  ⟨rfl, C7_deep_get_compose _ [Key.str "a"] [Key.str "b"] .null rfl⟩

/-- Fan-out of the list arm of `_walk`: the whole remaining path is
applied to every element and the per-element results are concatenated in
element order. -/
theorem walkArr_eq_join (return_val : String) (xs : List Value) (keys : List String) :
    walkArr return_val xs keys = (xs.map fun x => walkVal return_val x keys).flatten := by
  induction xs with
  | nil => rfl
  | cons x tl ih => simp [walkArr, ih]

/-- Counterexample to claim C5 as stated: with the (default) null
default, an empty aggregate makes `deep_walk` return a fresh empty list,
not the caller's default. -/
theorem C5_deep_walk_counterexample :
    deep_walk eRecordsEmpty ["records", "id"] .null "value" = .arr [] ∧
    Value.arr [] ≠ Value.null :=
  ⟨rfl, fun h => Value.noConfusion h⟩

/-- Claim C5 (amended): a sequence met mid-path fans the remaining path
out over every element, concatenating results in element order; for
every event, key path and default, a non-empty aggregate is returned
as-is, an empty aggregate yields the caller's non-null default, and a
null default is replaced by an empty sequence; on the records example
the walk returns `[1, 2]` for every default, and on the empty-records
example it returns the caller's non-null default. -/
theorem C5_deep_walk_fan_out :
    (∀ return_val xs key keys,
      walkVal return_val (.arr xs) (key :: keys) =
        (xs.map fun x => walkVal return_val x (key :: keys)).flatten) ∧
    (∀ event keys default, walkVal "value" event keys ≠ [] →
      deep_walk event keys default "value" = .arr (walkVal "value" event keys)) ∧
    (∀ event keys default, default ≠ .null → walkVal "value" event keys = [] →
      deep_walk event keys default "value" = default) ∧
    (∀ event keys, walkVal "value" event keys = [] →
      deep_walk event keys .null "value" = .arr []) ∧
    (∀ default, deep_walk eRecords ["records", "id"] default "value" =
      .arr [.int 1, .int 2]) ∧
    (∀ default, default ≠ .null →
      deep_walk eRecordsEmpty ["records", "id"] default "value" = default) := by
  refine ⟨?_, ?_, ?_, ?_, ?_, ?_⟩
  · intro return_val xs key keys
    simp [walkVal, walkArr_eq_join]
  · intro event keys default h
    unfold deep_walk
    cases hw : walkVal "value" event keys with
    | nil => exact absurd hw h
    | cons r rs => rfl
  · intro event keys default hd hw
    unfold deep_walk
    rw [hw]
    cases default <;> simp_all
  · intro event keys hw
    unfold deep_walk
    rw [hw]
  · intro default; rfl
  · intro default h
    cases default <;> simp_all [deep_walk, eRecordsEmpty, walkVal, walkObj, walkArr]

/-- Witness for C5: the empty-aggregate conjunct at the empty-records
example with a non-null default. -/
theorem C5_deep_walk_fan_out_witness :
    Value.str "NA" ≠ Value.null ∧
    walkVal "value" eRecordsEmpty ["records", "id"] = [] ∧
    deep_walk eRecordsEmpty ["records", "id"] (.str "NA") "value" = .str "NA" :=
  ⟨fun h => Value.noConfusion h, rfl,
   C5_deep_walk_fan_out.2.2.1 eRecordsEmpty ["records", "id"] (.str "NA")
     (fun h => Value.noConfusion h) rfl⟩

/-- Claim C1: the per-pair evaluation is a total function of unit and
event (it terminates and yields exactly one verdict, with no exception
channel in its type), and when the predicate raises, the verdict records
the fault in `error`, `matched` is false, and no extractor is invoked:
the verdict is exactly the initial result with `error` set, independent
of every extractor function. -/
theorem C1_run_detection_isolates_predicate_fault
    (detection : Detection) (event : Value) (msg : String)
    (h : detection.rule_func event = .error msg) :
    run_detection detection event =
      { rule_id := detection.rule_id
        rule_file := detection.file_path
        matched := false
        event := event
        error := some msg } := by
  simp only [run_detection, h]

/-- Witness for C1: a predicate that always raises. -/
theorem C1_run_detection_isolates_predicate_fault_witness :
    dRaise.rule_func eEmpty = .error "kaboom" ∧
    run_detection dRaise eEmpty =
      { rule_id := dRaise.rule_id
        rule_file := dRaise.file_path
        matched := false
        event := eEmpty
        error := some "kaboom" } :=
  ⟨rfl, C1_run_detection_isolates_predicate_fault dRaise eEmpty "kaboom" rfl⟩

/-- The dedup block never touches `matched`. -/
theorem dedupStep_matched (d : Detection) (e : Value) (r : DetectionResult) :
    (dedupStep d e r).matched = r.matched := by
  unfold dedupStep
  split
  · rfl
  · split <;> rfl

/-- The alert-context block never touches `matched`. -/
theorem alertContextStep_matched (d : Detection) (e : Value) (r : DetectionResult) :
    (alertContextStep d e r).matched = r.matched := by
  unfold alertContextStep
  split
  · exact dedupStep_matched ..
  · split
    · rw [dedupStep_matched]
    · rfl

/-- The runbook block never touches `matched`. -/
theorem runbookStep_matched (d : Detection) (e : Value) (r : DetectionResult) :
    (runbookStep d e r).matched = r.matched := by
  unfold runbookStep
  split
  · exact alertContextStep_matched ..
  · split
    · rw [alertContextStep_matched]
    · rfl

/-- The reference block never touches `matched`. -/
theorem referenceStep_matched (d : Detection) (e : Value) (r : DetectionResult) :
    (referenceStep d e r).matched = r.matched := by
  unfold referenceStep
  split
  · exact runbookStep_matched ..
  · split
    · rw [runbookStep_matched]
    · rfl

/-- The description block never touches `matched`. -/
theorem descriptionStep_matched (d : Detection) (e : Value) (r : DetectionResult) :
    (descriptionStep d e r).matched = r.matched := by
  unfold descriptionStep
  split
  · exact referenceStep_matched ..
  · split
    · rw [referenceStep_matched]
    · rfl

/-- The severity block never touches `matched`. -/
theorem severityStep_matched (d : Detection) (e : Value) (r : DetectionResult) :
    (severityStep d e r).matched = r.matched := by
  unfold severityStep
  split
  · rw [descriptionStep_matched]
  · split
    · rw [descriptionStep_matched]
    · rfl

/-- The title block (hence the whole extractor cascade) never touches
`matched`. -/
theorem titleStep_matched (d : Detection) (e : Value) (r : DetectionResult) :
    (titleStep d e r).matched = r.matched := by
  unfold titleStep
  split
  · exact severityStep_matched ..
  · split
    · rw [severityStep_matched]
    · rfl

/-- Counterexample to claim C2 as stated: `severity` is among the listed
optional metadata fields, yet on a non-matching verdict its dictionary
serialization is the populated string `"MEDIUM"`, not null/omitted. -/
theorem C2_severity_serializes_populated :
    (run_detection dNoMatch eEmpty).matched = false ∧
    dictLookup (run_detection dNoMatch eEmpty).to_dict "severity" = some (.str "MEDIUM") ∧
    Value.str "MEDIUM" ≠ Value.null :=
  ⟨rfl, rfl, fun h => Value.noConfusion h⟩

/-- Claim C2 (amended): on a non-matching verdict every optional
metadata field holds its dataclass default — `none` for title,
description, reference, runbook, alert context and dedup key, and the
string `"MEDIUM"` for severity — and the dictionary serialization
renders the `none`-valued fields as null while severity is rendered as
the populated default string `"MEDIUM"`. -/
theorem C2_no_match_fields_default (d : Detection) (e : Value)
    (h : (run_detection d e).matched = false) :
    (run_detection d e).title = none ∧
    (run_detection d e).severity = .str "MEDIUM" ∧
    (run_detection d e).description = none ∧
    (run_detection d e).reference = none ∧
    (run_detection d e).runbook = none ∧
    (run_detection d e).alert_context = none ∧
    (run_detection d e).dedup_string = none ∧
    dictLookup (run_detection d e).to_dict "title" = some .null ∧
    dictLookup (run_detection d e).to_dict "description" = some .null ∧
    dictLookup (run_detection d e).to_dict "reference" = some .null ∧
    dictLookup (run_detection d e).to_dict "runbook" = some .null ∧
    dictLookup (run_detection d e).to_dict "alert_context" = some .null ∧
    dictLookup (run_detection d e).to_dict "dedup_string" = some .null ∧
    dictLookup (run_detection d e).to_dict "severity" = some (.str "MEDIUM") := by
  cases hr : d.rule_func e with
  | error msg =>
      simp [run_detection, hr, DetectionResult.to_dict, dictLookup, lookupVal, optValue]
  | ok mv =>
      cases htr : truthy mv with
      | false =>
          simp [run_detection, hr, htr, DetectionResult.to_dict, dictLookup, lookupVal,
            optValue]
      | true =>
          exfalso
          simp only [run_detection, hr, htr, if_true] at h
          rw [titleStep_matched] at h
          simp at h

/-- Witness for C2: a never-matching detection on the empty event. -/
theorem C2_no_match_fields_default_witness :
    (run_detection dNoMatch eEmpty).matched = false ∧
    ((run_detection dNoMatch eEmpty).title = none ∧
    (run_detection dNoMatch eEmpty).severity = .str "MEDIUM" ∧
    (run_detection dNoMatch eEmpty).description = none ∧
    (run_detection dNoMatch eEmpty).reference = none ∧
    (run_detection dNoMatch eEmpty).runbook = none ∧
    (run_detection dNoMatch eEmpty).alert_context = none ∧
    (run_detection dNoMatch eEmpty).dedup_string = none ∧
    dictLookup (run_detection dNoMatch eEmpty).to_dict "title" = some .null ∧
    dictLookup (run_detection dNoMatch eEmpty).to_dict "description" = some .null ∧
    dictLookup (run_detection dNoMatch eEmpty).to_dict "reference" = some .null ∧
    dictLookup (run_detection dNoMatch eEmpty).to_dict "runbook" = some .null ∧
    dictLookup (run_detection dNoMatch eEmpty).to_dict "alert_context" = some .null ∧
    dictLookup (run_detection dNoMatch eEmpty).to_dict "dedup_string" = some .null ∧
    dictLookup (run_detection dNoMatch eEmpty).to_dict "severity" = some (.str "MEDIUM")) :=
  ⟨rfl, C2_no_match_fields_default dNoMatch eEmpty rfl⟩

/-- Counterexample to claim C3 as stated: with a raising title extractor
and a succeeding description extractor, the description extractor is
prevented from running — the single try/except aborts the rest of the
cascade, so `description` stays unset although its extractor would have
returned a value. -/
theorem C3_later_extractor_skipped :
    (run_detection dFaultTitle eEmpty).matched = true ∧
    (run_detection dFaultTitle eEmpty).error = some "boom" ∧
    dFaultTitle.description_func = some descFn ∧
    descFn eEmpty = .ok (.str "desc") ∧
    (run_detection dFaultTitle eEmpty).description = none :=
  ⟨rfl, rfl, rfl, rfl, rfl⟩

/-- Claim C3 (amended): once the predicate has returned a truthy value,
the populated extractors are invoked in the fixed order title, severity,
description, reference, runbook, alert_context, dedup; the first fault
among them is caught and recorded in the verdict's `error`, values
already computed are kept, `matched` is not flipped back to false, but
the remaining extractors are skipped and their fields stay unset;
severity defaults to `"MEDIUM"` when no severity extractor is defined. -/
theorem C3_extractor_first_fault :
    (∀ (d : Detection) (e mv : Value),
      d.rule_func e = .ok mv → truthy mv = true →
      StepOk d.title_func e → StepOk d.severity_func e → StepOk d.description_func e →
      StepOk d.reference_func e → StepOk d.runbook_func e → StepOk d.alert_context_func e →
      StepOk d.dedup_func e →
      run_detection d e =
        { rule_id := d.rule_id, rule_file := d.file_path, matched := true, event := e,
          title := stepVal d.title_func e, severity := sevVal d e,
          description := stepVal d.description_func e,
          reference := stepVal d.reference_func e,
          runbook := stepVal d.runbook_func e,
          alert_context := stepVal d.alert_context_func e,
          dedup_string := stepVal d.dedup_func e }) ∧
    (∀ (d : Detection) (e mv : Value) (f : RuleFn) (msg : String),
      d.rule_func e = .ok mv → truthy mv = true →
      d.title_func = some f → f e = .error msg →
      run_detection d e =
        { rule_id := d.rule_id, rule_file := d.file_path, matched := true, event := e,
          error := some msg }) ∧
    (∀ (d : Detection) (e mv : Value) (f : RuleFn) (msg : String),
      d.rule_func e = .ok mv → truthy mv = true →
      StepOk d.title_func e →
      d.severity_func = some f → f e = .error msg →
      run_detection d e =
        { rule_id := d.rule_id, rule_file := d.file_path, matched := true, event := e,
          title := stepVal d.title_func e, error := some msg }) ∧
    (∀ (d : Detection) (e mv : Value) (f : RuleFn) (msg : String),
      d.rule_func e = .ok mv → truthy mv = true →
      StepOk d.title_func e → StepOk d.severity_func e →
      d.description_func = some f → f e = .error msg →
      run_detection d e =
        { rule_id := d.rule_id, rule_file := d.file_path, matched := true, event := e,
          title := stepVal d.title_func e, severity := sevVal d e,
          error := some msg }) ∧
    (∀ (d : Detection) (e mv : Value) (f : RuleFn) (msg : String),
      d.rule_func e = .ok mv → truthy mv = true →
      StepOk d.title_func e → StepOk d.severity_func e → StepOk d.description_func e →
      d.reference_func = some f → f e = .error msg →
      run_detection d e =
        { rule_id := d.rule_id, rule_file := d.file_path, matched := true, event := e,
          title := stepVal d.title_func e, severity := sevVal d e,
          description := stepVal d.description_func e,
          error := some msg }) ∧
    (∀ (d : Detection) (e mv : Value) (f : RuleFn) (msg : String),
      d.rule_func e = .ok mv → truthy mv = true →
      StepOk d.title_func e → StepOk d.severity_func e → StepOk d.description_func e →
      StepOk d.reference_func e →
      d.runbook_func = some f → f e = .error msg →
      run_detection d e =
        { rule_id := d.rule_id, rule_file := d.file_path, matched := true, event := e,
          title := stepVal d.title_func e, severity := sevVal d e,
          description := stepVal d.description_func e,
          reference := stepVal d.reference_func e,
          error := some msg }) ∧
    (∀ (d : Detection) (e mv : Value) (f : RuleFn) (msg : String),
      d.rule_func e = .ok mv → truthy mv = true →
      StepOk d.title_func e → StepOk d.severity_func e → StepOk d.description_func e →
      StepOk d.reference_func e → StepOk d.runbook_func e →
      d.alert_context_func = some f → f e = .error msg →
      run_detection d e =
        { rule_id := d.rule_id, rule_file := d.file_path, matched := true, event := e,
          title := stepVal d.title_func e, severity := sevVal d e,
          description := stepVal d.description_func e,
          reference := stepVal d.reference_func e,
          runbook := stepVal d.runbook_func e,
          error := some msg }) ∧
    (∀ (d : Detection) (e mv : Value) (f : RuleFn) (msg : String),
      d.rule_func e = .ok mv → truthy mv = true →
      StepOk d.title_func e → StepOk d.severity_func e → StepOk d.description_func e →
      StepOk d.reference_func e → StepOk d.runbook_func e → StepOk d.alert_context_func e →
      d.dedup_func = some f → f e = .error msg →
      run_detection d e =
        { rule_id := d.rule_id, rule_file := d.file_path, matched := true, event := e,
          title := stepVal d.title_func e, severity := sevVal d e,
          description := stepVal d.description_func e,
          reference := stepVal d.reference_func e,
          runbook := stepVal d.runbook_func e,
          alert_context := stepVal d.alert_context_func e,
          error := some msg }) := by
  refine ⟨?_, ?_, ?_, ?_, ?_, ?_, ?_, ?_⟩
  · intro d e mv hr htr h1 h2 h3 h4 h5 h6 h7
    rcases h1 with h1 | ⟨f1, v1, h1, he1⟩ <;>
      rcases h2 with h2 | ⟨f2, v2, h2, he2⟩ <;>
        rcases h3 with h3 | ⟨f3, v3, h3, he3⟩ <;>
          rcases h4 with h4 | ⟨f4, v4, h4, he4⟩ <;>
            rcases h5 with h5 | ⟨f5, v5, h5, he5⟩ <;>
              rcases h6 with h6 | ⟨f6, v6, h6, he6⟩ <;>
                rcases h7 with h7 | ⟨f7, v7, h7, he7⟩ <;>
                  simp_all [run_detection, titleStep, severityStep, descriptionStep,
                    referenceStep, runbookStep, alertContextStep, dedupStep, stepVal,
                    sevVal, Detection.default_severity]
  · intro d e mv f msg hr htr hf hfe
    simp_all [run_detection, titleStep]
  · intro d e mv f msg hr htr h1 hf hfe
    rcases h1 with h1 | ⟨f1, v1, h1, he1⟩ <;>
      simp_all [run_detection, titleStep, severityStep, stepVal]
  · intro d e mv f msg hr htr h1 h2 hf hfe
    rcases h1 with h1 | ⟨f1, v1, h1, he1⟩ <;>
      rcases h2 with h2 | ⟨f2, v2, h2, he2⟩ <;>
        simp_all [run_detection, titleStep, severityStep, descriptionStep, stepVal,
          sevVal, Detection.default_severity]
  · intro d e mv f msg hr htr h1 h2 h3 hf hfe
    rcases h1 with h1 | ⟨f1, v1, h1, he1⟩ <;>
      rcases h2 with h2 | ⟨f2, v2, h2, he2⟩ <;>
        rcases h3 with h3 | ⟨f3, v3, h3, he3⟩ <;>
          simp_all [run_detection, titleStep, severityStep, descriptionStep,
            referenceStep, stepVal, sevVal, Detection.default_severity]
  · intro d e mv f msg hr htr h1 h2 h3 h4 hf hfe
    rcases h1 with h1 | ⟨f1, v1, h1, he1⟩ <;>
      rcases h2 with h2 | ⟨f2, v2, h2, he2⟩ <;>
        rcases h3 with h3 | ⟨f3, v3, h3, he3⟩ <;>
          rcases h4 with h4 | ⟨f4, v4, h4, he4⟩ <;>
            simp_all [run_detection, titleStep, severityStep, descriptionStep,
              referenceStep, runbookStep, stepVal, sevVal, Detection.default_severity]
  · intro d e mv f msg hr htr h1 h2 h3 h4 h5 hf hfe
    rcases h1 with h1 | ⟨f1, v1, h1, he1⟩ <;>
      rcases h2 with h2 | ⟨f2, v2, h2, he2⟩ <;>
        rcases h3 with h3 | ⟨f3, v3, h3, he3⟩ <;>
          rcases h4 with h4 | ⟨f4, v4, h4, he4⟩ <;>
            rcases h5 with h5 | ⟨f5, v5, h5, he5⟩ <;>
              simp_all [run_detection, titleStep, severityStep, descriptionStep,
                referenceStep, runbookStep, alertContextStep, stepVal, sevVal,
                Detection.default_severity]
  · intro d e mv f msg hr htr h1 h2 h3 h4 h5 h6 hf hfe
    rcases h1 with h1 | ⟨f1, v1, h1, he1⟩ <;>
      rcases h2 with h2 | ⟨f2, v2, h2, he2⟩ <;>
        rcases h3 with h3 | ⟨f3, v3, h3, he3⟩ <;>
          rcases h4 with h4 | ⟨f4, v4, h4, he4⟩ <;>
            rcases h5 with h5 | ⟨f5, v5, h5, he5⟩ <;>
              rcases h6 with h6 | ⟨f6, v6, h6, he6⟩ <;>
                simp_all [run_detection, titleStep, severityStep, descriptionStep,
                  referenceStep, runbookStep, alertContextStep, dedupStep, stepVal,
                  sevVal, Detection.default_severity]

/-- Witness for C3: the title-fault conjunct at the concrete fixture. -/
theorem C3_extractor_first_fault_witness :
    dFaultTitle.rule_func eEmpty = .ok (.bool true) ∧
    truthy (.bool true) = true ∧
    dFaultTitle.title_func = some (fun _ => Except.error "boom") ∧
    run_detection dFaultTitle eEmpty =
      { rule_id := dFaultTitle.rule_id, rule_file := dFaultTitle.file_path,
        matched := true, event := eEmpty, error := some "boom" } :=
  ⟨rfl, rfl, rfl,
   C3_extractor_first_fault.2.1 dFaultTitle eEmpty (.bool true)
     (fun _ => Except.error "boom") "boom" rfl rfl rfl rfl⟩

/-- The inner loop of `run` is a filter of the registry by the id filter
and the enabled flag, followed by evaluating each kept unit in registry
order. -/
theorem runUnits_eq (rule_ids : Option (List String)) (event : Value)
    (detections : List (String × Detection)) :
    runUnits rule_ids event detections =
      (detections.filter fun p => keepByFilter rule_ids p.1 && p.2.enabled).map
        fun p => run_detection p.2 event := by
  induction detections with
  | nil => rfl
  | cons hd tl ih =>
      obtain ⟨rid, d⟩ := hd
      by_cases hk : keepByFilter rule_ids rid = true
      · by_cases he : d.enabled = true
        · simp [runUnits, hk, he, List.filter, ih]
        · simp [runUnits, hk, he, List.filter, ih]
      · simp [runUnits, hk, List.filter, ih]

/-- Claim C4: `run` evaluates the Cartesian product with the outer loop
over events and the inner loop over registry entries in insertion order,
skipping units rejected by the id filter and disabled units, and returns
exactly one verdict per kept pair in event-major-then-unit order; in
particular two enabled units A, B against events e1, e2 give the order
(e1,A), (e1,B), (e2,A), (e2,B). -/
theorem C4_run_order :
    (∀ (detections : List (String × Detection)) (events : List Value)
        (rule_ids : Option (List String)),
      run detections events rule_ids =
        events.flatMap fun e =>
          (detections.filter fun p => keepByFilter rule_ids p.1 && p.2.enabled).map
            fun p => run_detection p.2 e) ∧
    (∀ (A B : Detection) (ridA ridB : String) (e1 e2 : Value),
      A.enabled = true → B.enabled = true →
      run [(ridA, A), (ridB, B)] [e1, e2] none =
        [run_detection A e1, run_detection B e1,
         run_detection A e2, run_detection B e2]) := by
  constructor
  · intro detections events rule_ids
    induction events with
    | nil => rfl
    | cons e rest ih => simp [run, runUnits_eq, ih]
  · intro A B ridA ridB e1 e2 hA hB
    simp [run, runUnits, keepByFilter, hA, hB]

/-- Witness for C4: the ordering conjunct at two concrete units and
events. -/
theorem C4_run_order_witness :
    dA.enabled = true ∧ dB.enabled = true ∧
    run [("A", dA), ("B", dB)] [.int 1, .int 2] none =
      [run_detection dA (.int 1), run_detection dB (.int 1),
       run_detection dA (.int 2), run_detection dB (.int 2)] :=
  ⟨rfl, rfl, C4_run_order.2 dA dB "A" "B" (.int 1) (.int 2) rfl rfl⟩

/-- An empty id filter is Python-falsy, so the inner loop skip test
never fires on it, exactly as with no filter. -/
theorem runUnits_empty_filter (event : Value) (detections : List (String × Detection)) :
    runUnits (some []) event detections = runUnits none event detections := by
  induction detections with
  | nil => rfl
  | cons hd tl ihd =>
      obtain ⟨rid, d⟩ := hd
      simp [runUnits, keepByFilter, ihd]

/-- Claim C9: a `rule_ids` filter supplied as the empty list is falsy in
Python, so no filtering is applied at all — `run` behaves exactly as
with no filter. -/
theorem C9_empty_filter_no_filtering
    (detections : List (String × Detection)) (events : List Value) :
    run detections events (some []) = run detections events none := by
  induction events with
  | nil => rfl
  | cons e rest ih => simp only [run, ih, runUnits_empty_filter]

/-- Claim C8: batch loading attempts each candidate source; a failing
source is skipped without aborting the batch and without touching the
registry, so only successfully loaded units are returned; in particular
a well-formed source next to a contractually-invalid one yields a
registry holding exactly the well-formed unit. -/
theorem C8_load_rules_skips_failures :
    (∀ (detections : List (String × Detection)) (src : RuleSource)
        (rest : List RuleSource) (msg : String),
      startsWithUnderscore src.stem = false →
      load_rule detections src = .error msg →
      load_rules detections (src :: rest) = load_rules detections rest) ∧
    load_rules [] [goodSrc, badSrc] = ([goodDet], [("good_rule", goodDet)]) := by
  constructor
  · intro detections src rest msg h1 h2
    simp [load_rules, h1, h2]
  · rfl

/-- Witness for C8: the skip conjunct at the invalid fixture source. -/
theorem C8_load_rules_skips_failures_witness :
    startsWithUnderscore badSrc.stem = false ∧
    load_rule [] badSrc = .error "Rule bad_rule must define a rule function" ∧
    load_rules [] [badSrc] = load_rules [] [] :=
  ⟨rfl, rfl,
   C8_load_rules_skips_failures.1 [] badSrc []
     "Rule bad_rule must define a rule function" rfl rfl⟩

/-- Claim C10: schema validation treats a null field value as satisfying
every declared type, and a required field is reported missing only when
its key is absent; hence an event whose keys cover the required fields
and whose present values are all null validates with no errors at all —
in particular none for a required field present with a null value. -/
theorem C10_null_field_validates :
    (∀ expected_type, check_type .null expected_type = true) ∧
    (∀ (s : LogSchema) (event : List (String × Value)),
      s.required_fields.all (fun fn => containsKey event fn) = true →
      event.all (fun kv => isNull kv.2) = true →
      s.validate event = []) := by
  constructor
  · intro expected_type; rfl
  · intro s event hreq hnull
    have hA : (s.required_fields.filterMap fun fn =>
        if containsKey event fn then none else some (missingMsg fn)) = [] := by
      rw [List.filterMap_eq_nil_iff]
      intro fn hfn
      have hc := (List.all_eq_true.mp hreq) fn hfn
      simp [hc]
    have hB : (s.fields.filterMap fun fd =>
        match lookupVal event fd.1 with
        | none => none
        | some v =>
            if check_type v fd.2.type then none
            else some (typeMsg fd.1 fd.2.type v)) = [] := by
      rw [List.filterMap_eq_nil_iff]
      intro fd hfd
      cases hlk : lookupVal event fd.1 with
      | none => rfl
      | some v =>
          have hv := (List.all_eq_true.mp hnull) _ (lookupVal_mem hlk)
          cases v <;> simp_all [isNull, check_type]
    simp only [LogSchema.validate, hA, hB, List.append_nil]

/-- Witness for C10: a required string field present with a null value
produces no validation errors. -/
theorem C10_null_field_validates_witness :
    schemaA.required_fields.all (fun fn => containsKey eventNullA fn) = true ∧
    eventNullA.all (fun kv => isNull kv.2) = true ∧
    schemaA.validate eventNullA = [] :=
  ⟨rfl, rfl, C10_null_field_validates.2 schemaA eventNullA rfl rfl⟩
